import Mathlib

/-!
Shallow embedding of the vulpes-spotify-mcp sources.

The repository has three source files:
* `src/spotify-client.ts` (the unnamed part_000): the Spotify facade —
  `ensureAccessToken`, `searchTracks`, `playTrack`, `getUserPlaylists`,
  `getPlaylistTracks`, `playPlaylist`, …
* `src/index.ts`: the MCP tool registry, including the two-step convenience
  tools `spotify-search-and-play` and `spotify-find-playlist`.
* the auth helper scripts (not referenced by any claim).

Remote HTTP calls are modelled by passing each call's outcome in as an
explicit `Except`-valued argument (the oracle for that request), and every
operation additionally returns the list of remote requests it issued, in
order.  JavaScript strings are modelled as Lean `String`s; the JS methods
`startsWith` and `includes` are modelled on the character sequence of the
string.  JS thrown errors are modelled directly by their stringified form
(the code only ever inspects `String(error)`).
-/

namespace SpotifyMcp

/-- JS `s.startsWith(pre)`: the characters of `pre` are an initial segment
of the characters of `s`. -/
def jsStartsWith (s pre : String) : Bool :=
  pre.data.isPrefixOf s.data

/-- JS `s.includes(sub)`: the characters of `sub` occur contiguously
inside the characters of `s`. -/
def jsIncludes (s sub : String) : Bool :=
  decide (sub.data <:+: s.data)

/-- JS `s.toLowerCase()`: lower-case every character. -/
def jsToLower (s : String) : String :=
  ⟨s.data.map Char.toLower⟩

/-! ## Token lifecycle manager (`ensureAccessToken`, part_000 lines 22–74) -/

/-- Which OAuth2 grant flow a request used. -/
inductive GrantFlow where
  | refreshTokenFlow
  | clientCredentialsFlow
  deriving DecidableEq, Repr

/-- The body of a successful grant response: the fields the code reads
(`access_token` and `expires_in`, the lifetime in seconds). -/
structure GrantResponse where
  access_token : String
  expires_in : Int
  deriving DecidableEq, Repr

/-- The process-wide mutable token state: the access token stored in the
`spotifyApi` client (unset at startup) and the module-level
`tokenExpirationTime` (initially `0`).  Times are milliseconds since the
epoch as JS numbers, modelled as `Int`. -/
structure TokenState where
  accessToken : Option String
  tokenExpirationTime : Int
  deriving DecidableEq, Repr

/-- The initial state: no access token set, `tokenExpirationTime = 0`. -/
def initialTokenState : TokenState :=
  { accessToken := none, tokenExpirationTime := 0 }

/-- The configuration read from the environment.  Only
`SPOTIFY_REFRESH_TOKEN` influences control flow; JS truthiness makes an
unset or empty variable falsy, modelled as `none`. -/
structure SpotifyEnv where
  refreshToken : Option String
  deriving DecidableEq, Repr

deriving instance DecidableEq for Except

/-- The observable effect of one `ensureAccessToken()` call: whether it
returned normally or threw (with the thrown message), the token state
after the call, and the grant requests it issued, in order. -/
structure EnsureResult where
  outcome : Except String Unit
  state : TokenState
  grants : List GrantFlow
  deriving DecidableEq, Repr

/-- `ensureAccessToken` (part_000 lines 28–74).  `now` is `Date.now()`;
`refreshGrant` and `ccGrant` are the oracles for
`spotifyApi.refreshAccessToken()` and
`spotifyApi.clientCredentialsGrant()`.  A failing refresh throws
`"Failed to refresh access token with refresh token"`, which the outer
catch replaces by `"Failed to authenticate with Spotify"`; a failing
client-credentials grant reaches the same outer catch. -/
def ensureAccessToken (env : SpotifyEnv) (now : Int) (st : TokenState)
    (refreshGrant : Except String GrantResponse)
    (ccGrant : Except String GrantResponse) : EnsureResult :=
  if now ≥ st.tokenExpirationTime - 60000 then
    match env.refreshToken with
    | some _ =>
      match refreshGrant with
      | .ok r =>
        { outcome := .ok ()
          state := { accessToken := some r.access_token
                     tokenExpirationTime := now + r.expires_in * 1000 - 60000 }
          grants := [.refreshTokenFlow] }
      | .error _ =>
        { outcome := .error "Failed to authenticate with Spotify"
          state := st
          grants := [.refreshTokenFlow] }
    | none =>
      match ccGrant with
      | .ok r =>
        { outcome := .ok ()
          state := { accessToken := some r.access_token
                     tokenExpirationTime := now + r.expires_in * 1000 - 60000 }
          grants := [.clientCredentialsFlow] }
      | .error _ =>
        { outcome := .error "Failed to authenticate with Spotify"
          state := st
          grants := [.clientCredentialsFlow] }
  else
    { outcome := .ok (), state := st, grants := [] }

/-- The remote token's actual expiry instant.  The code always stores
`tokenExpirationTime = grantTime + expires_in * 1000 - 60000`, i.e. the
real expiry minus the 60-second safety margin, so the real expiry of the
tracked token is the stored time plus `60000` ms. -/
def realExpiry (st : TokenState) : Int :=
  st.tokenExpirationTime + 60000

/-! ## Remote service facade (part_000 lines 166–570) -/

/-- `playTrack` line 213: `trackId.startsWith("spotify:track:") ? trackId
: the string literal prefix
followed by the id` (template literal). -/
def normalizeTrackUri (trackId : String) : String :=
  if jsStartsWith trackId "spotify:track:" then trackId
  else "spotify:track:" ++ trackId

/-- `playPlaylist` line 510: same pattern with the playlist prefix. -/
def normalizePlaylistUri (playlistId : String) : String :=
  if jsStartsWith playlistId "spotify:playlist:" then playlistId
  else "spotify:playlist:" ++ playlistId

/-- One HTTP request issued to the remote music service, with the
arguments the code passes. -/
inductive Request where
  | searchReq (query : String) (limit : Nat)
  | playUris (uris : List String)
  | playContext (uri : String)
  | getPlaylistReq (playlistId : String)
  | playlistTracksReq (playlistId : String) (limit : Nat)
  | setShuffleReq (state : Bool)
  | userPlaylistsReq (limit : Nat)
  deriving DecidableEq, Repr

/-- A playlist as the code summarizes it (`getUserPlaylists` lines
377–386); of the JSON fields only `id` and `name` are read by any later
step, the other display-only fields are carried nowhere and elided. -/
structure Playlist where
  id : String
  name : String
  deriving DecidableEq, Repr

/-- A track from the remote search response; of the fields the code
serializes, only `id`, `name` and the artist names are read by any later
step, the other display-only fields are elided. -/
structure Track where
  id : String
  name : String
  artists : List String
  deriving DecidableEq, Repr

/-- The `text` field of one returned content item.  A JSON payload
(produced by `JSON.stringify` in the source) is kept structured; its
serialization always starts with a brace, so it is never equal to any of
the plain sentinel strings the handlers compare against, and
`JSON.parse` succeeds exactly on the structured payloads. -/
inductive TextVal where
  | str (s : String)
  | jsonTrack (id name artist : String)
  | jsonPlaylists (items : List Playlist)
  deriving DecidableEq, Repr

/-- JS `===` comparison of a content item's `text` against a plain string
literal (see the remark on `TextVal`). -/
def TextVal.eqStr (v : TextVal) (s : String) : Bool :=
  match v with
  | .str t => t == s
  | _ => false

/-- `searchTracks` (lines 169–203).  `searchRes` is the oracle for
`spotifyApi.searchTracks(query, limit)`; its payload is the optional
`tracks.items` array (`response.body.tracks && ...length > 0`). -/
def searchTracks (query : String) (limit : Nat)
    (searchRes : Except String (Option (List Track))) :
    List TextVal × List Request :=
  match searchRes with
  | .ok (some items) =>
    if items.length > 0 then
      (items.map fun t =>
        .jsonTrack t.id t.name (String.intercalate ", " t.artists),
       [.searchReq query limit])
    else
      ([.str "No tracks found matching your query."], [.searchReq query limit])
  | .ok none =>
    ([.str "No tracks found matching your query."], [.searchReq query limit])
  | .error e =>
    ([.str ("Error searching for tracks: " ++ e)], [.searchReq query limit])

/-- The catch block of `playTrack` (lines 220–253): classify
`String(error)` by substring. -/
def playTrackCatch (e : String) : List TextVal :=
  if jsIncludes e "NOT_PREMIUM" then
    [.str "Error: This functionality requires a Spotify Premium account."]
  else if jsIncludes e "PERMISSION" then
    [.str "Error: Missing required permissions. Make sure your refresh token has the user-modify-playback-state scope."]
  else if jsIncludes e "NO_ACTIVE_DEVICE" then
    [.str "Error: No active Spotify playback device found. Please open Spotify on a device first."]
  else
    [.str ("Error playing track: " ++ e)]

/-- `playTrack` (lines 208–255).  `playRes` is the oracle for
`spotifyApi.play` with the `uris` array; it is the only statement in the try block
that can throw. -/
def playTrack (trackId : String) (playRes : Except String Unit) :
    List TextVal × List Request :=
  let uri := normalizeTrackUri trackId
  match playRes with
  | .ok _ =>
    ([.str ("Now playing track with URI: " ++ uri)], [.playUris [uri]])
  | .error e =>
    (playTrackCatch e, [.playUris [uri]])

/-- `getUserPlaylists` (lines 364–412).  `res` is the oracle for
`spotifyApi.getUserPlaylists(limit)` delivering `body.items`. -/
def getUserPlaylists (limit : Nat)
    (res : Except String (List Playlist)) :
    List TextVal × List Request :=
  match res with
  | .ok items =>
    if items.length > 0 then
      ([.jsonPlaylists items], [.userPlaylistsReq limit])
    else
      ([.str "No playlists found."], [.userPlaylistsReq limit])
  | .error e =>
    ([.str ("Error getting user playlists: " ++ e)], [.userPlaylistsReq limit])

/-- Request sequence of `getPlaylistTracks` (lines 417–488): first
`spotifyApi.getPlaylist(playlistId)`, then — only if that call did not
throw — `spotifyApi.getPlaylistTracks(playlistId, limit)`.  `metaRes`
is the oracle for the first call (carrying the playlist name).  Both
calls receive the `playlistId` argument verbatim; the function contains
no normalization.  The displayed JSON payload is not modelled: no claim
refers to it. -/
def getPlaylistTracksRequests (playlistId : String) (limit : Nat)
    (metaRes : Except String String) : List Request :=
  match metaRes with
  | .error _ => [.getPlaylistReq playlistId]
  | .ok _ => [.getPlaylistReq playlistId, .playlistTracksReq playlistId limit]

/-- The catch block of `playPlaylist` (lines 526–569): identical
classification, generic message `Error playing playlist:` instead. -/
def playPlaylistCatch (e : String) : List TextVal :=
  if jsIncludes e "NOT_PREMIUM" then
    [.str "Error: This functionality requires a Spotify Premium account."]
  else if jsIncludes e "PERMISSION" then
    [.str "Error: Missing required permissions. Make sure your refresh token has the user-modify-playback-state scope."]
  else if jsIncludes e "NO_ACTIVE_DEVICE" then
    [.str "Error: No active Spotify playback device found. Please open Spotify on a device first."]
  else
    [.str ("Error playing playlist: " ++ e)]

/-- `playPlaylist` (lines 493–570).  The try block issues, in order,
`getPlaylist(playlistId)` (raw argument; oracle `metaRes`, carrying the
playlist name), then `setShuffle(shuffle)` (oracle `shuffleRes`) — the
guard `shuffle !== undefined` is always true because the TypeScript
default parameter `shuffle = false` replaces `undefined` — and finally
`play` with `context_uri` set to the normalized `uri` with the normalized URI (oracle `playRes`).
A throw at any step skips the remaining requests and lands in the catch
block. -/
def playPlaylist (playlistId : String) (shuffle : Bool)
    (metaRes : Except String String)
    (shuffleRes : Except String Unit)
    (playRes : Except String Unit) :
    List TextVal × List Request :=
  match metaRes with
  | .error e =>
    (playPlaylistCatch e, [.getPlaylistReq playlistId])
  | .ok playlistName =>
    match shuffleRes with
    | .error e =>
      (playPlaylistCatch e,
       [.getPlaylistReq playlistId, .setShuffleReq shuffle])
    | .ok _ =>
      let uri := normalizePlaylistUri playlistId
      match playRes with
      | .error e =>
        (playPlaylistCatch e,
         [.getPlaylistReq playlistId, .setShuffleReq shuffle, .playContext uri])
      | .ok _ =>
        ([.str ("Now playing playlist \"" ++ playlistName ++ "\" "
            ++ (if shuffle then "on shuffle mode" else "in order") ++ ".")],
         [.getPlaylistReq playlistId, .setShuffleReq shuffle, .playContext uri])

/-! ## Tool registry: the two-step convenience tools (index.ts) -/

/-- One call from a tool handler into the facade layer. -/
inductive FacadeCall where
  | searchCall (query : String) (limit : Nat)
  | playTrackCall (trackId : String)
  | userPlaylistsCall (limit : Nat)
  | playPlaylistCall (playlistId : String) (shuffle : Bool)
  deriving DecidableEq, Repr

/-- Whether a facade call is one of the two play steps. -/
def FacadeCall.isPlayStep : FacadeCall → Bool
  | .playTrackCall _ => true
  | .playPlaylistCall _ _ => true
  | _ => false

/-- The `spotify-search-and-play` handler (index.ts lines 151–208):
`searchTracks(query, 1)`, the no-match check
(`length === 0 || text === "No tracks found matching your query."`),
then `JSON.parse` of the first result and `playTrack(track.id)`.  The
result of `playTrack` is discarded by the source.  A `JSON.parse`
failure (the first result is a plain string) lands in the catch block;
the engine-produced SyntaxError text is not modelled, no claim refers
to it. -/
def searchAndPlayTool (query : String)
    (searchRes : Except String (Option (List Track)))
    (playRes : Except String Unit) :
    List TextVal × List FacadeCall :=
  let searchResults := (searchTracks query 1 searchRes).1
  if searchResults.length == 0
      || TextVal.eqStr (searchResults.headD (.str ""))
           "No tracks found matching your query." then
    ([.str ("No tracks found matching \"" ++ query ++ "\"")],
     [.searchCall query 1])
  else
    match searchResults.headD (.str "") with
    | .jsonTrack id name artist =>
      let _playResult := playTrack id playRes
      ([.str ("Found and playing: \"" ++ name ++ "\" by " ++ artist)],
       [.searchCall query 1, .playTrackCall id])
    | _ =>
      ([.str "Error trying to play track: JSON parse failure"],
       [.searchCall query 1])

/-- The `spotify-find-playlist` handler (index.ts lines 211–294):
`getUserPlaylists(50)`, the no-playlists check, `JSON.parse`,
case-insensitive substring filter on the names, then
`playPlaylist(matchingPlaylists[0].id, shuffle)` (result discarded). -/
def findPlaylistTool (name : String) (shuffle : Bool)
    (playlistsRes : Except String (List Playlist))
    (metaRes : Except String String)
    (shuffleRes : Except String Unit)
    (playRes : Except String Unit) :
    List TextVal × List FacadeCall :=
  let playlistsResult := (getUserPlaylists 50 playlistsRes).1
  if playlistsResult.length == 0
      || TextVal.eqStr (playlistsResult.headD (.str "")) "No playlists found." then
    ([.str "No playlists found for your account."], [.userPlaylistsCall 50])
  else
    match playlistsResult.headD (.str "") with
    | .jsonPlaylists playlists =>
      let searchTerm := jsToLower name
      let matchingPlaylists :=
        playlists.filter fun p => jsIncludes (jsToLower p.name) searchTerm
      match matchingPlaylists with
      | [] =>
        ([.str ("No playlists found matching \"" ++ name ++ "\".")],
         [.userPlaylistsCall 50])
      | playlist :: _ =>
        let _playResult := playPlaylist playlist.id shuffle metaRes shuffleRes playRes
        ([.str ("Found and playing playlist: \"" ++ playlist.name ++ "\" "
            ++ (if shuffle then "on shuffle mode" else "in order"))],
         [.userPlaylistsCall 50, .playPlaylistCall playlist.id shuffle])
    | _ =>
      ([.str "Error trying to find and play playlist: JSON parse failure"],
       [.userPlaylistsCall 50])

/-! ## Theorems -/

/-- Appending the prefix makes the prefix check succeed. -/
theorem jsStartsWith_append (p s : String) : jsStartsWith (p ++ s) p = true := by
  simp [jsStartsWith]

/-- C1: a call made while the cached token still has more than 60 seconds
of tracked validity returns without issuing any grant request and leaves
the stored access token and `tokenExpirationTime` unchanged. -/
theorem ensureAccessToken_fresh_noop (env : SpotifyEnv) (now : Int)
    (st : TokenState) (rr cc : Except String GrantResponse)
    (h : now < st.tokenExpirationTime - 60000) :
    ensureAccessToken env now st rr cc
      = { outcome := .ok (), state := st, grants := [] } := by
  unfold ensureAccessToken
  rw [if_neg (by omega)]

/-- Witness for C1 at a concrete input. -/
theorem ensureAccessToken_fresh_noop_witness :
    ensureAccessToken ⟨some "r"⟩ 0 ⟨some "tok", 1000000⟩ (.error "x") (.ok ⟨"t", 3600⟩)
      = { outcome := .ok (), state := ⟨some "tok", 1000000⟩, grants := [] } :=
  ensureAccessToken_fresh_noop _ _ _ _ _ (by decide)

/-- C2: once the 60-second margin is reached, exactly one grant request
is issued — the refresh-token flow when a refresh credential is
configured, otherwise the client-credentials flow — and a successful
grant with lifetime `expires_in` seconds sets `tokenExpirationTime` to
`now + expires_in * 1000 - 60000`. -/
theorem ensureAccessToken_expired_single_grant (env : SpotifyEnv) (now : Int)
    (st : TokenState) (rr cc : Except String GrantResponse)
    (h : now ≥ st.tokenExpirationTime - 60000) :
    (ensureAccessToken env now st rr cc).grants.length = 1 ∧
    (env.refreshToken.isSome = true →
      (ensureAccessToken env now st rr cc).grants = [.refreshTokenFlow]) ∧
    (env.refreshToken = none →
      (ensureAccessToken env now st rr cc).grants = [.clientCredentialsFlow]) ∧
    (∀ r, env.refreshToken.isSome = true → rr = .ok r →
      ensureAccessToken env now st rr cc
        = { outcome := .ok ()
            state := { accessToken := some r.access_token
                       tokenExpirationTime := now + r.expires_in * 1000 - 60000 }
            grants := [.refreshTokenFlow] }) ∧
    (∀ r, env.refreshToken = none → cc = .ok r →
      ensureAccessToken env now st rr cc
        = { outcome := .ok ()
            state := { accessToken := some r.access_token
                       tokenExpirationTime := now + r.expires_in * 1000 - 60000 }
            grants := [.clientCredentialsFlow] }) := by
  unfold ensureAccessToken
  rw [if_pos h]
  rcases henv : env.refreshToken with _ | s <;>
    rcases rr with e | r <;> rcases cc with e' | r' <;>
      simp_all

/-- Witness for C2: one refresh-flow instance and one
client-credentials-flow instance. -/
theorem ensureAccessToken_expired_single_grant_witness :
    (ensureAccessToken ⟨some "r"⟩ 5 initialTokenState (.ok ⟨"t", 3600⟩) (.error "e")
      = { outcome := .ok ()
          state := { accessToken := some "t", tokenExpirationTime := 5 + 3600 * 1000 - 60000 }
          grants := [.refreshTokenFlow] }) ∧
    (ensureAccessToken ⟨none⟩ 5 initialTokenState (.error "e") (.ok ⟨"t", 3600⟩)
      = { outcome := .ok ()
          state := { accessToken := some "t", tokenExpirationTime := 5 + 3600 * 1000 - 60000 }
          grants := [.clientCredentialsFlow] }) :=
  ⟨(ensureAccessToken_expired_single_grant ⟨some "r"⟩ 5 initialTokenState
      (.ok ⟨"t", 3600⟩) (.error "e") (by decide)).2.2.2.1 ⟨"t", 3600⟩ rfl rfl,
   (ensureAccessToken_expired_single_grant ⟨none⟩ 5 initialTokenState
      (.error "e") (.ok ⟨"t", 3600⟩) (by decide)).2.2.2.2 ⟨"t", 3600⟩ rfl rfl⟩

/-- C3: a failing refresh-token grant makes the call throw
`"Failed to authenticate with Spotify"` with no client-credentials
attempt; a client-credentials request can only ever be issued when no
refresh credential is configured. -/
theorem ensureAccessToken_no_fallback (env : SpotifyEnv) (now : Int)
    (st : TokenState) (rr cc : Except String GrantResponse) :
    (∀ s e, env.refreshToken = some s →
      now ≥ st.tokenExpirationTime - 60000 → rr = .error e →
      ensureAccessToken env now st rr cc
        = { outcome := .error "Failed to authenticate with Spotify"
            state := st
            grants := [.refreshTokenFlow] }) ∧
    (.clientCredentialsFlow ∈ (ensureAccessToken env now st rr cc).grants →
      env.refreshToken = none) := by
  constructor
  · intro s e hs hnow hrr
    unfold ensureAccessToken
    rw [if_pos hnow, hs, hrr]
  · intro hmem
    unfold ensureAccessToken at hmem
    by_cases hnow : now ≥ st.tokenExpirationTime - 60000
    · rw [if_pos hnow] at hmem
      rcases henv : env.refreshToken with _ | s
      · rfl
      · rw [henv] at hmem
        rcases rr with e | r <;> simp_all
    · rw [if_neg hnow] at hmem
      simp at hmem

/-- Witness for C3: a failing refresh with a configured credential, and a
client-credentials grant observed only without a credential. -/
theorem ensureAccessToken_no_fallback_witness :
    (ensureAccessToken ⟨some "r"⟩ 5 initialTokenState (.error "boom") (.ok ⟨"t", 3600⟩)
      = { outcome := .error "Failed to authenticate with Spotify"
          state := initialTokenState
          grants := [.refreshTokenFlow] }) ∧
    (⟨none⟩ : SpotifyEnv).refreshToken = none :=
  ⟨(ensureAccessToken_no_fallback ⟨some "r"⟩ 5 initialTokenState
      (.error "boom") (.ok ⟨"t", 3600⟩)).1 "r" "boom" rfl (by decide) rfl,
   (ensureAccessToken_no_fallback ⟨none⟩ 5 initialTokenState
      (.error "e") (.ok ⟨"t", 3600⟩)).2 (by decide)⟩

/-- C4 as stated is false: a successful refresh whose grant returns a
10-second lifetime returns without throwing, yet the resulting state is
already past its 60-second margin — the current time plus 60 seconds
exceeds the token's real expiry (10 seconds from now). -/
theorem ensureAccessToken_short_lifetime_cex :
    (ensureAccessToken ⟨some "r"⟩ 0 initialTokenState (.ok ⟨"tok", 10⟩) (.error "e")).outcome
      = .ok () ∧
    ¬ ((0 : Int) + 60000 ≤
        realExpiry (ensureAccessToken ⟨some "r"⟩ 0 initialTokenState
          (.ok ⟨"tok", 10⟩) (.error "e")).state) := by
  constructor
  · rfl
  · decide

/-- C4 amended: whenever every grant that can be used returns a lifetime
of at least 60 seconds, a call that returns without throwing leaves the
state valid for at least 60 more seconds: `now + 60000` does not exceed
the token's real expiry. -/
theorem ensureAccessToken_validity_margin (env : SpotifyEnv) (now : Int)
    (st : TokenState) (rr cc : Except String GrantResponse)
    (hrr : ∀ r, rr = .ok r → r.expires_in ≥ 60)
    (hcc : ∀ r, cc = .ok r → r.expires_in ≥ 60)
    (hok : (ensureAccessToken env now st rr cc).outcome = .ok ()) :
    now + 60000 ≤ realExpiry (ensureAccessToken env now st rr cc).state := by
  unfold ensureAccessToken at hok ⊢
  by_cases hnow : now ≥ st.tokenExpirationTime - 60000
  · rw [if_pos hnow] at hok ⊢
    revert hok
    rcases henv : env.refreshToken with _ | s
    · rcases hc : cc with e | r
      · intro hok
        simp at hok
      · intro _
        have h60 := hcc r hc
        show now + 60000 ≤ now + r.expires_in * 1000 - 60000 + 60000
        omega
    · rcases hr : rr with e | r
      · intro hok
        simp at hok
      · intro _
        have h60 := hrr r hr
        show now + 60000 ≤ now + r.expires_in * 1000 - 60000 + 60000
        omega
  · rw [if_neg hnow] at hok ⊢
    show now + 60000 ≤ st.tokenExpirationTime + 60000
    omega

/-- Witness for the amended C4 at a concrete input. -/
theorem ensureAccessToken_validity_margin_witness :
    (0 : Int) + 60000 ≤
      realExpiry (ensureAccessToken ⟨some "r"⟩ 0 initialTokenState
        (.ok ⟨"t", 3600⟩) (.error "e")).state :=
  ensureAccessToken_validity_margin ⟨some "r"⟩ 0 initialTokenState
    (.ok ⟨"t", 3600⟩) (.error "e")
    (by intro r hr; cases hr; decide)
    (by intro r hr; cases hr)
    (by decide)

/-- C5 as stated is false: `getPlaylistTracks` issues both its remote
requests with the argument exactly as given, so the bare id `"abc"`
reaches the remote service unnormalized — it differs from the URI form
`"spotify:playlist:abc"`.  (The same raw argument also reaches
`playPlaylist`'s metadata fetch, see the amended theorem.) -/
theorem getPlaylistTracks_raw_id_cex :
    getPlaylistTracksRequests "abc" 50 (.ok "Chill")
      = [.getPlaylistReq "abc", .playlistTracksReq "abc" 50] ∧
    normalizePlaylistUri "abc" = "spotify:playlist:abc" ∧
    "abc" ≠ normalizePlaylistUri "abc" := by
  decide

/-- C5 amended: `playTrack` issues its play request with the normalized
track URI; `playPlaylist` issues its play request with the normalized
playlist URI but passes the raw argument to its metadata fetch; and
`getPlaylistTracks` passes the raw argument to both of its requests,
performing no normalization. -/
theorem identifier_normalization_per_operation
    (trackId playlistId nm : String) (limit : Nat) (shuffle : Bool)
    (playRes playRes2 : Except String Unit) :
    (playTrack trackId playRes).2 = [.playUris [normalizeTrackUri trackId]] ∧
    getPlaylistTracksRequests playlistId limit (.ok nm)
      = [.getPlaylistReq playlistId, .playlistTracksReq playlistId limit] ∧
    (playPlaylist playlistId shuffle (.ok nm) (.ok ()) playRes2).2
      = [.getPlaylistReq playlistId, .setShuffleReq shuffle,
         .playContext (normalizePlaylistUri playlistId)] := by
  refine ⟨?_, rfl, ?_⟩
  · cases playRes <;> rfl
  · cases playRes2 <;> rfl

/-- C6: both identifier normalizations are idempotent, and an input that
already carries the full URI prefix for its resource type is returned
unchanged. -/
theorem normalize_idempotent (s : String) :
    normalizeTrackUri (normalizeTrackUri s) = normalizeTrackUri s ∧
    normalizePlaylistUri (normalizePlaylistUri s) = normalizePlaylistUri s ∧
    (jsStartsWith s "spotify:track:" = true → normalizeTrackUri s = s) ∧
    (jsStartsWith s "spotify:playlist:" = true → normalizePlaylistUri s = s) := by
  refine ⟨?_, ?_, ?_, ?_⟩
  · by_cases h : jsStartsWith s "spotify:track:" = true
    · simp [normalizeTrackUri, h]
    · have h' : jsStartsWith s "spotify:track:" = false := by
        simpa using h
      simp [normalizeTrackUri, h', jsStartsWith_append]
  · by_cases h : jsStartsWith s "spotify:playlist:" = true
    · simp [normalizePlaylistUri, h]
    · have h' : jsStartsWith s "spotify:playlist:" = false := by
        simpa using h
      simp [normalizePlaylistUri, h', jsStartsWith_append]
  · intro h
    simp [normalizeTrackUri, h]
  · intro h
    simp [normalizePlaylistUri, h]

/-- Witness for C6 at concrete inputs, both on a bare id and on inputs
already in URI form. -/
theorem normalize_idempotent_witness :
    normalizeTrackUri (normalizeTrackUri "abc123") = normalizeTrackUri "abc123" ∧
    normalizeTrackUri "spotify:track:abc123" = "spotify:track:abc123" ∧
    normalizePlaylistUri "spotify:playlist:abc123" = "spotify:playlist:abc123" :=
  ⟨(normalize_idempotent "abc123").1,
   (normalize_idempotent "spotify:track:abc123").2.2.1 (by decide),
   (normalize_idempotent "spotify:playlist:abc123").2.2.2 (by decide)⟩

/-- C7: in both two-step tools, a step-one result with no match stops the
pipeline — no play step is attempted and a distinct not-found text is
returned; and when the playlist listing is non-empty and some playlist
name contains the query case-insensitively, `spotify-find-playlist`
selects the first such playlist (the head of the filtered list) and
issues exactly one play-playlist call, with that playlist's id. -/
theorem twoStep_no_match_and_first_match (query nm : String) (shuffle : Bool)
    (playRes playRes2 shuffleRes : Except String Unit)
    (metaRes : Except String String) (ps : List Playlist) :
    (searchAndPlayTool query (.ok none) playRes
      = ([.str ("No tracks found matching \"" ++ query ++ "\"")],
         [.searchCall query 1])) ∧
    (searchAndPlayTool query (.ok (some [])) playRes
      = ([.str ("No tracks found matching \"" ++ query ++ "\"")],
         [.searchCall query 1])) ∧
    (findPlaylistTool nm shuffle (.ok []) metaRes shuffleRes playRes2
      = ([.str "No playlists found for your account."],
         [.userPlaylistsCall 50])) ∧
    ((∀ p ∈ ps, jsIncludes (jsToLower p.name) (jsToLower nm) = false) → ps ≠ [] →
      findPlaylistTool nm shuffle (.ok ps) metaRes shuffleRes playRes2
        = ([.str ("No playlists found matching \"" ++ nm ++ "\".")],
           [.userPlaylistsCall 50])) ∧
    (∀ p rest, ps.filter (fun q => jsIncludes (jsToLower q.name) (jsToLower nm)) = p :: rest →
      findPlaylistTool nm shuffle (.ok ps) metaRes shuffleRes playRes2
        = ([.str ("Found and playing playlist: \"" ++ p.name ++ "\" "
            ++ (if shuffle then "on shuffle mode" else "in order"))],
           [.userPlaylistsCall 50, .playPlaylistCall p.id shuffle])) := by
  refine ⟨?_, ?_, ?_, ?_, ?_⟩
  · simp [searchAndPlayTool, searchTracks, TextVal.eqStr]
  · simp [searchAndPlayTool, searchTracks, TextVal.eqStr]
  · simp [findPlaylistTool, getUserPlaylists, TextVal.eqStr]
  · intro hall hne
    rcases ps with _ | ⟨a, l⟩
    · exact absurd rfl hne
    · have hfil : (a :: l).filter (fun q => jsIncludes (jsToLower q.name) (jsToLower nm)) = [] := by
        rw [List.filter_eq_nil_iff]
        intro x hx
        simp [hall x hx]
      simp [findPlaylistTool, getUserPlaylists, TextVal.eqStr, hfil]
  · intro p rest hfil
    rcases ps with _ | ⟨a, l⟩
    · simp at hfil
    · simp [findPlaylistTool, getUserPlaylists, TextVal.eqStr, hfil]

/-- Witness for C7: the spec's own scenario.  With playlists
"Summer Roadtrip" and "Chill" the query "roadtrip" selects
"Summer Roadtrip" and issues exactly one play-playlist call with its id;
with no name matching, and with an empty search result, no play step is
attempted. -/
theorem twoStep_no_match_and_first_match_witness :
    (findPlaylistTool "roadtrip" false (.ok [⟨"pl1", "Summer Roadtrip"⟩, ⟨"pl2", "Chill"⟩])
        (.ok "Summer Roadtrip") (.ok ()) (.ok ())
      = ([.str "Found and playing playlist: \"Summer Roadtrip\" in order"],
         [.userPlaylistsCall 50, .playPlaylistCall "pl1" false])) ∧
    (findPlaylistTool "jazz" false (.ok [⟨"pl2", "Chill"⟩])
        (.ok "Chill") (.ok ()) (.ok ())
      = ([.str "No playlists found matching \"jazz\"."],
         [.userPlaylistsCall 50])) ∧
    (searchAndPlayTool "Bohemian Rhapsody" (.ok (some [])) (.ok ())
      = ([.str "No tracks found matching \"Bohemian Rhapsody\""],
         [.searchCall "Bohemian Rhapsody" 1])) :=
  ⟨(twoStep_no_match_and_first_match "q" "roadtrip" false (.ok ()) (.ok ()) (.ok ())
      (.ok "Summer Roadtrip") [⟨"pl1", "Summer Roadtrip"⟩, ⟨"pl2", "Chill"⟩]).2.2.2.2
      ⟨"pl1", "Summer Roadtrip"⟩ [] (by decide),
   (twoStep_no_match_and_first_match "q" "jazz" false (.ok ()) (.ok ()) (.ok ())
      (.ok "Chill") [⟨"pl2", "Chill"⟩]).2.2.2.1
      (by decide) (by decide),
   (twoStep_no_match_and_first_match "Bohemian Rhapsody" "n" false (.ok ()) (.ok ()) (.ok ())
      (.ok "x") []).2.1⟩

/-- C8 as stated is false: one fully successful `playPlaylist` invocation
issues three remote requests, not two — the guard `shuffle !== undefined`
is always satisfied because the TypeScript default parameter
`shuffle = false` replaces `undefined`, so a set-shuffle request is
always issued between the metadata fetch and the play request. -/
theorem playPlaylist_three_requests_cex :
    playPlaylist "p1" false (.ok "Chill") (.ok ()) (.ok ())
      = ([.str "Now playing playlist \"Chill\" in order."],
         [.getPlaylistReq "p1", .setShuffleReq false,
          .playContext "spotify:playlist:p1"]) ∧
    (playPlaylist "p1" false (.ok "Chill") (.ok ()) (.ok ())).2.length ≠ 2 := by
  decide

/-- C8 amended: every successful `playPlaylist` invocation issues exactly
three remote requests, in order: the playlist-metadata fetch, the
set-shuffle request, and the play request — and no other request. -/
theorem playPlaylist_request_sequence (playlistId nm : String) (shuffle : Bool) :
    playPlaylist playlistId shuffle (.ok nm) (.ok ()) (.ok ())
      = ([.str ("Now playing playlist \"" ++ nm ++ "\" "
          ++ (if shuffle then "on shuffle mode" else "in order") ++ ".")],
         [.getPlaylistReq playlistId, .setShuffleReq shuffle,
          .playContext (normalizePlaylistUri playlistId)]) := rfl

/-- C9 as stated is false: a play failure whose message contains
`NO_ACTIVE_DEVICE` does not always yield the no-active-device text —
when the message also contains `NOT_PREMIUM`, the premium text is
returned instead. -/
theorem playTrack_no_active_device_cex :
    jsIncludes "NOT_PREMIUM NO_ACTIVE_DEVICE" "NO_ACTIVE_DEVICE" = true ∧
    (playTrack "xyz" (.error "NOT_PREMIUM NO_ACTIVE_DEVICE")).1
      = [.str "Error: This functionality requires a Spotify Premium account."] ∧
    (playTrack "xyz" (.error "NOT_PREMIUM NO_ACTIVE_DEVICE")).1
      ≠ [.str "Error: No active Spotify playback device found. Please open Spotify on a device first."] := by
  decide

/-- C9 amended: when the failing play error message contains
`NO_ACTIVE_DEVICE` and contains neither `NOT_PREMIUM` nor `PERMISSION`,
`playTrack` returns (does not throw) exactly the no-active-device text. -/
theorem playTrack_no_active_device (trackId e : String)
    (h1 : jsIncludes e "NOT_PREMIUM" = false)
    (h2 : jsIncludes e "PERMISSION" = false)
    (h3 : jsIncludes e "NO_ACTIVE_DEVICE" = true) :
    (playTrack trackId (.error e)).1
      = [.str "Error: No active Spotify playback device found. Please open Spotify on a device first."] := by
  simp [playTrack, playTrackCatch, h1, h2, h3]

/-- Witness for the amended C9: the spec scenario with the plain
`NO_ACTIVE_DEVICE` message. -/
theorem playTrack_no_active_device_witness :
    (playTrack "xyz" (.error "NO_ACTIVE_DEVICE")).1
      = [.str "Error: No active Spotify playback device found. Please open Spotify on a device first."] :=
  playTrack_no_active_device "xyz" "NO_ACTIVE_DEVICE"
    (by decide) (by decide) (by decide)

/-- C10: in both `playTrack` and `playPlaylist`, remote-error
classification checks `NOT_PREMIUM`, then `PERMISSION`, then
`NO_ACTIVE_DEVICE`, in that precedence order, so a message containing
several of them gets the message of the earliest one, and a message
containing none of them falls through to a generic text carrying the raw
error. -/
theorem play_error_precedence (trackId playlistId nm e : String) (shuffle : Bool) :
    (jsIncludes e "NOT_PREMIUM" = true →
      (playTrack trackId (.error e)).1
        = [.str "Error: This functionality requires a Spotify Premium account."] ∧
      (playPlaylist playlistId shuffle (.ok nm) (.ok ()) (.error e)).1
        = [.str "Error: This functionality requires a Spotify Premium account."]) ∧
    (jsIncludes e "NOT_PREMIUM" = false → jsIncludes e "PERMISSION" = true →
      (playTrack trackId (.error e)).1
        = [.str "Error: Missing required permissions. Make sure your refresh token has the user-modify-playback-state scope."] ∧
      (playPlaylist playlistId shuffle (.ok nm) (.ok ()) (.error e)).1
        = [.str "Error: Missing required permissions. Make sure your refresh token has the user-modify-playback-state scope."]) ∧
    (jsIncludes e "NOT_PREMIUM" = false → jsIncludes e "PERMISSION" = false →
      jsIncludes e "NO_ACTIVE_DEVICE" = true →
      (playTrack trackId (.error e)).1
        = [.str "Error: No active Spotify playback device found. Please open Spotify on a device first."] ∧
      (playPlaylist playlistId shuffle (.ok nm) (.ok ()) (.error e)).1
        = [.str "Error: No active Spotify playback device found. Please open Spotify on a device first."]) ∧
    (jsIncludes e "NOT_PREMIUM" = false → jsIncludes e "PERMISSION" = false →
      jsIncludes e "NO_ACTIVE_DEVICE" = false →
      (playTrack trackId (.error e)).1 = [.str ("Error playing track: " ++ e)] ∧
      (playPlaylist playlistId shuffle (.ok nm) (.ok ()) (.error e)).1
        = [.str ("Error playing playlist: " ++ e)]) := by
  refine ⟨?_, ?_, ?_, ?_⟩
  · intro h1
    exact ⟨by simp [playTrack, playTrackCatch, h1],
           by simp [playPlaylist, playPlaylistCatch, h1]⟩
  · intro h1 h2
    exact ⟨by simp [playTrack, playTrackCatch, h1, h2],
           by simp [playPlaylist, playPlaylistCatch, h1, h2]⟩
  · intro h1 h2 h3
    exact ⟨by simp [playTrack, playTrackCatch, h1, h2, h3],
           by simp [playPlaylist, playPlaylistCatch, h1, h2, h3]⟩
  · intro h1 h2 h3
    exact ⟨by simp [playTrack, playTrackCatch, h1, h2, h3],
           by simp [playPlaylist, playPlaylistCatch, h1, h2, h3]⟩

/-- Witness for C10: one message per precedence bucket, including an
overlapping message where the earlier substring wins. -/
theorem play_error_precedence_witness :
    ((playTrack "t" (.error "PERMISSION NOT_PREMIUM")).1
      = [.str "Error: This functionality requires a Spotify Premium account."]) ∧
    ((playPlaylist "p" false (.ok "nm") (.ok ()) (.error "PERMISSION NO_ACTIVE_DEVICE")).1
      = [.str "Error: Missing required permissions. Make sure your refresh token has the user-modify-playback-state scope."]) ∧
    ((playTrack "t" (.error "NO_ACTIVE_DEVICE")).1
      = [.str "Error: No active Spotify playback device found. Please open Spotify on a device first."]) ∧
    ((playPlaylist "p" false (.ok "nm") (.ok ()) (.error "odd failure")).1
      = [.str "Error playing playlist: odd failure"]) :=
  ⟨((play_error_precedence "t" "p" "nm" "PERMISSION NOT_PREMIUM" false).1
      (by decide)).1,
   ((play_error_precedence "t" "p" "nm" "PERMISSION NO_ACTIVE_DEVICE" false).2.1
      (by decide) (by decide)).2,
   ((play_error_precedence "t" "p" "nm" "NO_ACTIVE_DEVICE" false).2.2.1
      (by decide) (by decide) (by decide)).1,
   ((play_error_precedence "t" "p" "nm" "odd failure" false).2.2.2
      (by decide) (by decide) (by decide)).2⟩

end SpotifyMcp
